import Mathlib

/-!
Shallow embedding of the task-management service
(`app/api/v1/tasks.py` and `app/models/task.py`).

Timestamps are modelled as natural numbers.  Each `datetime.utcnow()` call
in the Python source becomes an explicit time argument of the embedded
operation, passed in the order the source makes the calls.

Stored tasks are Python dicts whose values may be `None`; every field that
can hold `None` at runtime is therefore an `Option` here.  Update payloads
are tri-state per field (absent / explicit null / value), mirroring JSON
bodies as parsed by pydantic v1 with `exclude_unset`.
-/

namespace TaskApi

/-- `TaskStatus` enumeration from `app/models/task.py`. -/
inductive TaskStatus
  | pending
  | in_progress
  | completed
  | cancelled
  deriving DecidableEq, Repr

/-- `TaskPriority` enumeration from `app/models/task.py`. -/
inductive TaskPriority
  | low
  | medium
  | high
  | critical
  deriving DecidableEq, Repr

/-- A stored task: the dict built by `create_task` and mutated by
`update_task`.  Fields other than `id`, `created_at`, `updated_at` can hold
`None` at runtime (an update may write an explicit null), hence `Option`. -/
structure StoredTask where
  id : Nat
  title : Option String
  description : Option String
  status : Option TaskStatus
  priority : Option TaskPriority
  due_date : Option Nat
  created_at : Nat
  updated_at : Nat
  deriving DecidableEq, Repr

/-- A validated `TaskCreate` payload (pydantic model `TaskCreate`), after
defaults were applied: `title` is required, `status` defaults to `pending`,
`priority` defaults to `medium`. -/
structure TaskCreate where
  title : String
  description : Option String
  status : TaskStatus
  priority : TaskPriority
  due_date : Option Nat
  deriving DecidableEq, Repr

/-- A raw create request body before pydantic validation; `none` stands for
an absent (or null) field. -/
structure RawCreate where
  title : Option String
  description : Option String
  status : Option TaskStatus
  priority : Option TaskPriority
  due_date : Option Nat
  deriving DecidableEq, Repr

/-- `Field(..., min_length=1, max_length=200)` on `title`. -/
def validTitle (t : String) : Bool :=
  1 ≤ t.length && t.length ≤ 200

/-- `Field(None, max_length=1000)` on `description`. -/
def validDescription (d : Option String) : Bool :=
  match d with
  | none => true
  | some s => s.length ≤ 1000

/-- Pydantic validation of a `TaskCreate` body: `title` is required and
length-checked, `description` is length-checked when present, `status` and
`priority` fall back to their declared defaults when absent. -/
def validateCreate (r : RawCreate) : Except String TaskCreate :=
  match r.title with
  | none => .error "validation error"
  | some t =>
    if validTitle t && validDescription r.description then
      .ok ⟨t, r.description, r.status.getD .pending, r.priority.getD .medium, r.due_date⟩
    else
      .error "validation error"

/-- One field of a JSON update body: absent, explicit null, or a value. -/
inductive Patch (α : Type)
  | unset
  | null
  | set (v : α)
  deriving DecidableEq, Repr

/-- The `TaskUpdate` pydantic model: every field `Optional`, default `None`. -/
structure TaskUpdate where
  title : Patch String
  description : Patch String
  status : Patch TaskStatus
  priority : Patch TaskPriority
  due_date : Patch Nat
  deriving DecidableEq, Repr

/-- Pydantic v1 validation of a `TaskUpdate` body: length constraints run
only on supplied string values; an explicit null passes because every field
of `TaskUpdate` is `Optional`. -/
def validateUpdate (u : TaskUpdate) : Bool :=
  (match u.title with
   | .set t => validTitle t
   | _ => true) &&
  (match u.description with
   | .set d => d.length ≤ 1000
   | _ => true)

/-- Writing one field of `task_update.dict(exclude_unset=True)` into the
stored dict: an unset field is skipped, a set field (null included)
overwrites. -/
def applyPatch : Patch α → Option α → Option α
  | .unset, o => o
  | .null, _ => none
  | .set v, _ => some v

/-- The module-level mutable state of `tasks.py`: `tasks_db` and `next_id`. -/
structure AppState where
  tasks_db : List StoredTask
  next_id : Nat
  deriving DecidableEq, Repr

/-- `tasks_db = []`, `next_id = 1` at module load. -/
def initialState : AppState := ⟨[], 1⟩

/-- The 404 detail string `f"Task with ID \x7btask_id\x7d not found"`. -/
def notFoundMsg (id : Nat) : String :=
  "Task with ID " ++ toString id ++ " not found"

/-- `create_task` after validation: build the new dict (the two time
arguments are the two successive `datetime.utcnow()` calls for
`created_at` and `updated_at`), append it, advance `next_id`. -/
def create_task (tc : TaskCreate) (t_created t_updated : Nat) (s : AppState) :
    StoredTask × AppState :=
  let newTask : StoredTask :=
    { id := s.next_id
      title := some tc.title
      description := tc.description
      status := some tc.status
      priority := some tc.priority
      due_date := tc.due_date
      created_at := t_created
      updated_at := t_updated }
  (newTask, { tasks_db := s.tasks_db ++ [newTask], next_id := s.next_id + 1 })

/-- `create_task` at the request boundary: pydantic validation first. -/
def handleCreate (r : RawCreate) (t_created t_updated : Nat) (s : AppState) :
    Except String (StoredTask × AppState) :=
  match validateCreate r with
  | .error e => .error e
  | .ok tc => .ok (create_task tc t_created t_updated s)

/-- `next((task for task in tasks_db if task["id"] == task_id), None)`. -/
def findTask (id : Nat) (db : List StoredTask) : Option StoredTask :=
  db.find? (fun t => t.id == id)

/-- `get_task`: return the record or raise 404. -/
def get_task (id : Nat) (s : AppState) : Except String StoredTask :=
  match findTask id s.tasks_db with
  | some t => .ok t
  | none => .error (notFoundMsg id)

/-- The in-place field loop of `update_task` plus the `updated_at` refresh
(`now` is the `datetime.utcnow()` call on line 89). -/
def applyUpdate (u : TaskUpdate) (now : Nat) (t : StoredTask) : StoredTask :=
  { t with
    title := applyPatch u.title t.title
    description := applyPatch u.description t.description
    status := applyPatch u.status t.status
    priority := applyPatch u.priority t.priority
    due_date := applyPatch u.due_date t.due_date
    updated_at := now }

/-- Mutating the first dict with the given id in place. -/
def updateFirst (id : Nat) (f : StoredTask → StoredTask) :
    List StoredTask → List StoredTask
  | [] => []
  | t :: ts => if t.id == id then f t :: ts else t :: updateFirst id f ts

/-- `update_task` body: locate the record or raise 404, overwrite the
fields present in the payload, refresh `updated_at`. -/
def update_task (id : Nat) (u : TaskUpdate) (now : Nat) (s : AppState) :
    Except String (StoredTask × AppState) :=
  match findTask id s.tasks_db with
  | none => .error (notFoundMsg id)
  | some t =>
    .ok (applyUpdate u now t,
         { tasks_db := updateFirst id (applyUpdate u now) s.tasks_db
           next_id := s.next_id })

/-- `update_task` at the request boundary: pydantic validation first. -/
def handleUpdate (id : Nat) (u : TaskUpdate) (now : Nat) (s : AppState) :
    Except String (StoredTask × AppState) :=
  if validateUpdate u then update_task id u now s else .error "validation error"

/-- `delete_task`: locate the record or raise 404, then rebuild `tasks_db`
without the given id and return the confirmation message. -/
def delete_task (id : Nat) (s : AppState) : Except String (String × AppState) :=
  match findTask id s.tasks_db with
  | none => .error (notFoundMsg id)
  | some _ =>
    .ok ("Task " ++ toString id ++ " deleted successfully",
         { tasks_db := s.tasks_db.filter (fun t => t.id != id)
           next_id := s.next_id })

/-- The two sequential filter comprehensions of `get_tasks`. -/
def filteredTasks (st? : Option TaskStatus) (pr? : Option TaskPriority)
    (s : AppState) : List StoredTask :=
  let f1 :=
    match st? with
    | none => s.tasks_db
    | some st => s.tasks_db.filter (fun t => t.status == some st)
  match pr? with
  | none => f1
  | some pr => f1.filter (fun t => t.priority == some pr)

/-- `get_tasks` after query validation: filter, then the slice
`filtered_tasks[offset : offset + limit]`. -/
def get_tasks (st? : Option TaskStatus) (pr? : Option TaskPriority)
    (limit offset : Nat) (s : AppState) : List StoredTask :=
  ((filteredTasks st? pr? s).drop offset).take limit

/-- FastAPI validation of `limit` (`ge=1, le=100`, default 10) and `offset`
(`ge=0`, default 0); `none` stands for an omitted query parameter. -/
def parseListParams (limit? offset? : Option Int) : Except String (Nat × Nat) :=
  let l := limit?.getD 10
  let o := offset?.getD 0
  if 1 ≤ l ∧ l ≤ 100 ∧ 0 ≤ o then .ok (l.toNat, o.toNat)
  else .error "validation error"

/-- `get_tasks` at the request boundary: query validation then the body. -/
def handleList (st? : Option TaskStatus) (pr? : Option TaskPriority)
    (limit? offset? : Option Int) (s : AppState) :
    Except String (List StoredTask) :=
  match parseListParams limit? offset? with
  | .error e => .error e
  | .ok (l, o) => .ok (get_tasks st? pr? l o s)

/-- Iteration order of `for status in TaskStatus`. -/
def allStatuses : List TaskStatus :=
  [.pending, .in_progress, .completed, .cancelled]

/-- Iteration order of `for priority in TaskPriority`. -/
def allPriorities : List TaskPriority :=
  [.low, .medium, .high, .critical]

/-- `len([task for task in tasks_db if task["status"] == status])`. -/
def countStatus (st : TaskStatus) (db : List StoredTask) : Nat :=
  (db.filter (fun t => t.status == some st)).length

/-- `len([task for task in tasks_db if task["priority"] == priority])`. -/
def countPriority (pr : TaskPriority) (db : List StoredTask) : Nat :=
  (db.filter (fun t => t.priority == some pr)).length

/-- `get_task_summary`: `(total, by_status, by_priority)`; the empty store
short-circuits to `(0, [], [])`. -/
def summary (s : AppState) :
    Nat × List (TaskStatus × Nat) × List (TaskPriority × Nat) :=
  if s.tasks_db.isEmpty then (0, [], [])
  else
    (s.tasks_db.length,
     allStatuses.map (fun st => (st, countStatus st s.tasks_db)),
     allPriorities.map (fun pr => (pr, countPriority pr s.tasks_db)))

/-- One API request, carrying the clock readings its handler will make. -/
inductive Op
  | create (r : RawCreate) (t_created t_updated : Nat)
  | update (id : Nat) (u : TaskUpdate) (now : Nat)
  | delete (id : Nat)
  | get (id : Nat)
  | list (st? : Option TaskStatus) (pr? : Option TaskPriority)
      (limit? offset? : Option Int)

/-- Effect of one request on the module state; a failed request leaves the
state as it was. -/
def step (s : AppState) : Op → AppState
  | .create r t1 t2 =>
    match handleCreate r t1 t2 s with
    | .ok (_, s') => s'
    | .error _ => s
  | .update id u now =>
    match handleUpdate id u now s with
    | .ok (_, s') => s'
    | .error _ => s
  | .delete id =>
    match delete_task id s with
    | .ok (_, s') => s'
    | .error _ => s
  | .get _ => s
  | .list _ _ _ _ => s

/-- Run a request trace. -/
def exec (s : AppState) : List Op → AppState
  | [] => s
  | op :: ops => exec (step s op) ops

/-- Whether a request is a create that passes validation (and therefore
consumes an id). -/
def createOk : Op → Bool
  | .create r _ _ =>
    match validateCreate r with
    | .ok _ => true
    | .error _ => false
  | _ => false

/-- Number of ids consumed along a trace. -/
def countCreates (ops : List Op) : Nat :=
  (ops.filter createOk).length

/-- The ids assigned by the successful creates of a trace, in order. -/
def issuedIds (s : AppState) : List Op → List Nat
  | [] => []
  | op :: ops =>
    (if createOk op then [s.next_id] else []) ++ issuedIds (step s op) ops

/-! ### General lemmas about the trace semantics -/

theorem step_next_id (s : AppState) (op : Op) :
    (step s op).next_id = if createOk op then s.next_id + 1 else s.next_id := by
  cases op with
  | create r t1 t2 =>
    cases h : validateCreate r with
    | error e => simp [step, handleCreate, createOk, h]
    | ok tc => simp [step, handleCreate, createOk, h, create_task]
  | update id u now =>
    simp only [step, createOk, handleUpdate, update_task]
    by_cases h : validateUpdate u
    · simp only [if_pos h]
      cases findTask id s.tasks_db
      · simp
      · simp
    · simp [h]
  | delete id =>
    simp only [step, createOk, delete_task]
    cases findTask id s.tasks_db
    · simp
    · simp
  | get id => simp [step, createOk]
  | list a b c d => simp [step, createOk]

theorem countCreates_cons (op : Op) (ops : List Op) :
    countCreates (op :: ops) =
      (if createOk op then 1 else 0) + countCreates ops := by
  simp only [countCreates, List.filter_cons]
  by_cases h : createOk op
  · simp [h, Nat.add_comm]
  · simp [h]

theorem exec_next_id (ops : List Op) :
    ∀ s : AppState, (exec s ops).next_id = s.next_id + countCreates ops := by
  induction ops with
  | nil => intro s; simp [exec, countCreates]
  | cons op ops ih =>
    intro s
    rw [exec, ih, step_next_id, countCreates_cons]
    by_cases h : createOk op <;> simp [h] <;> omega

theorem issuedIds_eq_range' (ops : List Op) :
    ∀ s : AppState, issuedIds s ops = List.range' s.next_id (countCreates ops) := by
  induction ops with
  | nil => intro s; simp [issuedIds, countCreates]
  | cons op ops ih =>
    intro s
    rw [issuedIds, ih, step_next_id, countCreates_cons]
    by_cases h : createOk op
    · simp only [if_pos h]
      rw [Nat.add_comm 1 (countCreates ops), List.range'_succ]
      rfl
    · simp [h]

/-- Claim C1: task ids are unique across the store's lifetime.  Along every
request trace from the initial state, the counter equals one plus the number
of successful creates (it advances by exactly one per successful create and
is touched by no other request), the ids issued are `1, 2, …` in order, each
issued id is strictly greater than every id issued before it, and no id is
ever issued twice — in particular an id is never reused after its task is
deleted. -/
theorem task_ids_unique_across_lifetime (ops : List Op) :
    (exec initialState ops).next_id = 1 + countCreates ops ∧
    issuedIds initialState ops = List.range' 1 (countCreates ops) ∧
    (issuedIds initialState ops).Pairwise (· < ·) ∧
    (issuedIds initialState ops).Nodup ∧
    (∀ (s : AppState) (op : Op),
      (step s op).next_id = if createOk op then s.next_id + 1 else s.next_id) := by
  refine ⟨?_, ?_, ?_, ?_, step_next_id⟩
  · rw [exec_next_id]; simp [initialState, Nat.add_comm]
  · rw [issuedIds_eq_range']; rfl
  · rw [issuedIds_eq_range']
    exact List.pairwise_lt_range' _ _
  · rw [issuedIds_eq_range']
    exact List.nodup_range' _ _

/-! ### Concrete fixtures -/

/-- The body `⟨title "T", defaults everywhere else⟩` after validation. -/
def exampleCreate : TaskCreate := ⟨"T", none, .pending, .medium, none⟩

/-- The state after one create at clock 0: one task with id 1. -/
def exampleState1 : AppState := (create_task exampleCreate 0 0 initialState).2

/-- The update body `⟨"title": null⟩` (all other fields absent). -/
def nullTitleUpdate : TaskUpdate := ⟨.null, .unset, .unset, .unset, .unset⟩

/-! ### C3: creation timestamps -/

/-- Claim C3 counterexample: `create_task` reads the clock twice (lines 67
and 68), once for `created_at` and once for `updated_at`; when the clock
advances between the two reads (here from 0 to 1) the created task has
`created_at ≠ updated_at`, refuting "both set to the same now() value". -/
theorem create_task_created_ne_updated :
    (create_task exampleCreate 0 1 initialState).1.created_at ≠
      (create_task exampleCreate 0 1 initialState).1.updated_at := by
  decide

/-- Claim C3 (amended): `create_task` sets `created_at` from the first
clock reading and `updated_at` from the second; under a monotone clock
`created_at ≤ updated_at`, with equality exactly when the two readings
coincide. -/
theorem create_task_timestamps (tc : TaskCreate) (t1 t2 : Nat) (h : t1 ≤ t2)
    (s : AppState) :
    (create_task tc t1 t2 s).1.created_at = t1 ∧
    (create_task tc t1 t2 s).1.updated_at = t2 ∧
    (create_task tc t1 t2 s).1.created_at ≤
      (create_task tc t1 t2 s).1.updated_at ∧
    (t1 = t2 →
      (create_task tc t1 t2 s).1.created_at =
        (create_task tc t1 t2 s).1.updated_at) := by
  exact ⟨rfl, rfl, h, fun h2 => h2⟩

theorem create_task_timestamps_witness :
    (create_task exampleCreate 3 4 initialState).1.created_at = 3 ∧
    (create_task exampleCreate 3 4 initialState).1.updated_at = 4 ∧
    (create_task exampleCreate 3 4 initialState).1.created_at ≤
      (create_task exampleCreate 3 4 initialState).1.updated_at ∧
    ((3 : Nat) = 4 →
      (create_task exampleCreate 3 4 initialState).1.created_at =
        (create_task exampleCreate 3 4 initialState).1.updated_at) :=
  create_task_timestamps exampleCreate 3 4 (by decide) initialState

/-! ### C2: the title/description constraints -/

/-- Claim C2 (code bug exhibit): the update body `⟨"title": null⟩` passes
`TaskUpdate` validation (pydantic v1 skips length constraints for an
explicit null on an `Optional` field), and `update_task` then writes
`title = null` into the stored record — after the operation the store
holds a task whose title is not a non-empty string, and no
`ValidationError` ever occurred.  This contradicts both the invariant and
the `Task` response model, which declares `title` a required string of
length ≥ 1. -/
theorem null_title_update_bug :
    validateUpdate nullTitleUpdate = true ∧
    exampleState1.tasks_db.map (fun t => t.title) = [some "T"] ∧
    handleUpdate 1 nullTitleUpdate 5 exampleState1 =
      .ok (⟨1, none, none, some .pending, some .medium, none, 0, 5⟩,
           ⟨[⟨1, none, none, some .pending, some .medium, none, 0, 5⟩], 2⟩) ∧
    validateCreate ⟨some "T", none, none, none, none⟩ = .ok exampleCreate := by
  exact ⟨rfl, rfl, rfl, rfl⟩

/-! ### C4: partial update semantics -/

theorem updateFirst_length (id : Nat) (f : StoredTask → StoredTask) :
    ∀ db : List StoredTask, (updateFirst id f db).length = db.length := by
  intro db
  induction db with
  | nil => rfl
  | cons t ts ih =>
    rw [updateFirst]
    by_cases h : t.id == id
    · simp [h]
    · simp only [if_neg h, List.length_cons, ih]

theorem mem_updateFirst_of_ne (id : Nat) (f : StoredTask → StoredTask)
    (w : StoredTask) (hw : w.id ≠ id) :
    ∀ db : List StoredTask, w ∈ db → w ∈ updateFirst id f db := by
  intro db
  induction db with
  | nil => intro h; exact absurd h (List.not_mem_nil w)
  | cons t ts ih =>
    intro hmem
    rw [updateFirst]
    rcases List.mem_cons.mp hmem with heq | hts
    · subst heq
      rw [if_neg (by simpa using hw)]
      exact List.mem_cons_self _ _
    · by_cases h : t.id == id
      · rw [if_pos h]; exact List.mem_cons_of_mem _ hts
      · rw [if_neg h]; exact List.mem_cons_of_mem _ (ih hts)

/-- Claim C4: for an existing task id, `update_task` succeeds, returns a
record with the same `id` and `created_at`, refreshes `updated_at` to the
clock reading, overwrites exactly the fields present in the payload (a
field absent from the body keeps its old value — no reset to a default; a
field supplied with a value receives that value), leaves the counter
untouched, and leaves every task with a different id in the store. -/
theorem update_changes_exactly_given_fields (s : AppState) (id : Nat)
    (u : TaskUpdate) (now : Nat) (t₀ : StoredTask)
    (hfind : findTask id s.tasks_db = some t₀) :
    ∃ t' s', update_task id u now s = .ok (t', s') ∧
      t'.id = t₀.id ∧
      t'.created_at = t₀.created_at ∧
      t'.updated_at = now ∧
      (u.title = .unset → t'.title = t₀.title) ∧
      (u.description = .unset → t'.description = t₀.description) ∧
      (u.status = .unset → t'.status = t₀.status) ∧
      (u.priority = .unset → t'.priority = t₀.priority) ∧
      (u.due_date = .unset → t'.due_date = t₀.due_date) ∧
      (∀ v, u.title = .set v → t'.title = some v) ∧
      (∀ v, u.description = .set v → t'.description = some v) ∧
      (∀ v, u.status = .set v → t'.status = some v) ∧
      (∀ v, u.priority = .set v → t'.priority = some v) ∧
      (∀ v, u.due_date = .set v → t'.due_date = some v) ∧
      s'.next_id = s.next_id ∧
      s'.tasks_db.length = s.tasks_db.length ∧
      (∀ w ∈ s.tasks_db, w.id ≠ id → w ∈ s'.tasks_db) := by
  refine ⟨applyUpdate u now t₀,
          ⟨updateFirst id (applyUpdate u now) s.tasks_db, s.next_id⟩, ?_,
          rfl, rfl, rfl, ?_, ?_, ?_, ?_, ?_, ?_, ?_, ?_, ?_, ?_, rfl,
          updateFirst_length id _ s.tasks_db, ?_⟩
  · rw [update_task, hfind]
  · intro h; simp [applyUpdate, h, applyPatch]
  · intro h; simp [applyUpdate, h, applyPatch]
  · intro h; simp [applyUpdate, h, applyPatch]
  · intro h; simp [applyUpdate, h, applyPatch]
  · intro h; simp [applyUpdate, h, applyPatch]
  · intro v h; simp [applyUpdate, h, applyPatch]
  · intro v h; simp [applyUpdate, h, applyPatch]
  · intro v h; simp [applyUpdate, h, applyPatch]
  · intro v h; simp [applyUpdate, h, applyPatch]
  · intro v h; simp [applyUpdate, h, applyPatch]
  · intro w hmem hne
    exact mem_updateFirst_of_ne id _ w hne s.tasks_db hmem

theorem update_changes_exactly_given_fields_witness :
    ∃ t' s',
      update_task 1 nullTitleUpdate 7 exampleState1 = .ok (t', s') ∧
      t'.id = (create_task exampleCreate 0 0 initialState).1.id ∧
      t'.created_at = (create_task exampleCreate 0 0 initialState).1.created_at ∧
      t'.updated_at = 7 ∧
      (nullTitleUpdate.title = .unset →
        t'.title = (create_task exampleCreate 0 0 initialState).1.title) ∧
      (nullTitleUpdate.description = .unset →
        t'.description = (create_task exampleCreate 0 0 initialState).1.description) ∧
      (nullTitleUpdate.status = .unset →
        t'.status = (create_task exampleCreate 0 0 initialState).1.status) ∧
      (nullTitleUpdate.priority = .unset →
        t'.priority = (create_task exampleCreate 0 0 initialState).1.priority) ∧
      (nullTitleUpdate.due_date = .unset →
        t'.due_date = (create_task exampleCreate 0 0 initialState).1.due_date) ∧
      (∀ v, nullTitleUpdate.title = .set v → t'.title = some v) ∧
      (∀ v, nullTitleUpdate.description = .set v → t'.description = some v) ∧
      (∀ v, nullTitleUpdate.status = .set v → t'.status = some v) ∧
      (∀ v, nullTitleUpdate.priority = .set v → t'.priority = some v) ∧
      (∀ v, nullTitleUpdate.due_date = .set v → t'.due_date = some v) ∧
      s'.next_id = exampleState1.next_id ∧
      s'.tasks_db.length = exampleState1.tasks_db.length ∧
      (∀ w ∈ exampleState1.tasks_db, w.id ≠ 1 → w ∈ s'.tasks_db) :=
  update_changes_exactly_given_fields exampleState1 1 nullTitleUpdate 7
    (create_task exampleCreate 0 0 initialState).1 (by decide)

/-! ### C9: not-found behaviour -/

/-- Claim C9: `get_task`, `update_task` and `delete_task` on an id that is
not in the store all fail with the message "Task with ID <id> not found"
and leave the state unchanged; and whenever a delete succeeds, a `get_task`
of the same id on the resulting state fails with that message. -/
theorem notfound_spec (s : AppState) (id : Nat)
    (h : ∀ t ∈ s.tasks_db, t.id ≠ id) :
    get_task id s = .error (notFoundMsg id) ∧
    (∀ u now, update_task id u now s = .error (notFoundMsg id)) ∧
    delete_task id s = .error (notFoundMsg id) ∧
    step s (.get id) = s ∧
    (∀ u now, step s (.update id u now) = s) ∧
    step s (.delete id) = s ∧
    notFoundMsg id = "Task with ID " ++ toString id ++ " not found" ∧
    (∀ (s' s'' : AppState) (msg : String),
      delete_task id s' = .ok (msg, s'') →
      get_task id s'' = .error (notFoundMsg id)) := by
  have hfind : findTask id s.tasks_db = none := by
    rw [findTask, List.find?_eq_none]
    intro t ht
    simpa using h t ht
  refine ⟨?_, ?_, ?_, rfl, ?_, ?_, rfl, ?_⟩
  · rw [get_task, hfind]
  · intro u now; rw [update_task, hfind]
  · rw [delete_task, hfind]
  · intro u now
    by_cases hv : validateUpdate u
    · simp [step, handleUpdate, hv, update_task, hfind]
    · simp [step, handleUpdate, hv]
  · simp [step, delete_task, hfind]
  · intro s' s'' msg hdel
    cases hf : findTask id s'.tasks_db with
    | none => rw [delete_task, hf] at hdel; exact absurd hdel (by simp)
    | some t =>
      rw [delete_task, hf] at hdel
      have hs'' : s'' = ⟨s'.tasks_db.filter (fun t => t.id != id), s'.next_id⟩ := by
        have := (Except.ok.injEq _ _).mp hdel
        exact (Prod.mk.injEq _ _ _ _).mp this |>.2.symm
      have hnone : findTask id s''.tasks_db = none := by
        rw [findTask, List.find?_eq_none]
        intro x hx
        rw [hs''] at hx
        have := List.of_mem_filter hx
        simpa using this
      rw [get_task, hnone]

theorem notfound_spec_witness :
    get_task 2 exampleState1 = .error (notFoundMsg 2) :=
  (notfound_spec exampleState1 2 (by decide)).1

/-! ### C10: delete frame -/

theorem filter_ne_id_length (id : Nat) :
    ∀ db : List StoredTask, (db.map (fun t => t.id)).Nodup →
      ∀ t₀ ∈ db, t₀.id = id →
      (db.filter (fun t => t.id != id)).length + 1 = db.length := by
  intro db
  induction db with
  | nil => intro _ t₀ hmem _; exact absurd hmem (List.not_mem_nil t₀)
  | cons t ts ih =>
    intro hnodup t₀ hmem hid
    rw [List.map_cons, List.nodup_cons] at hnodup
    rcases List.mem_cons.mp hmem with heq | hts
    · subst heq
      rw [List.filter_cons_of_neg (by simp [hid])]
      have hall : ts.filter (fun x => x.id != id) = ts := by
        apply List.filter_eq_self.mpr
        intro x hx
        have hxid : x.id ≠ id := by
          intro hcontra
          apply hnodup.1
          rw [hid]
          exact List.mem_map.mpr ⟨x, hx, hcontra⟩
        simpa using hxid
      simp [hall]
    · have htid : t.id ≠ id := by
        intro hcontra
        apply hnodup.1
        rw [hcontra]
        exact List.mem_map.mpr ⟨t₀, hts, hid⟩
      rw [List.filter_cons_of_pos (by simpa using htid)]
      simp only [List.length_cons]
      rw [← ih hnodup.2 t₀ hts hid]

/-- Claim C10: deleting an existing id succeeds and removes exactly the
task with that id: the new store is the old one with the id filtered out
(so every other task is unchanged and keeps its relative order), the store
shrinks by exactly one record, and the id counter is not modified. -/
theorem delete_removes_exactly_target (s : AppState) (id : Nat)
    (t₀ : StoredTask) (hmem : t₀ ∈ s.tasks_db) (hid : t₀.id = id)
    (hnodup : (s.tasks_db.map (fun t => t.id)).Nodup) :
    ∃ msg s', delete_task id s = .ok (msg, s') ∧
      s'.next_id = s.next_id ∧
      s'.tasks_db = s.tasks_db.filter (fun t => t.id != id) ∧
      s'.tasks_db.Sublist s.tasks_db ∧
      s'.tasks_db.length + 1 = s.tasks_db.length ∧
      (∀ w ∈ s.tasks_db, w.id ≠ id → w ∈ s'.tasks_db) ∧
      (∀ w ∈ s'.tasks_db, w.id ≠ id) := by
  cases hf : findTask id s.tasks_db with
  | none =>
    exfalso
    have := List.find?_eq_none.mp hf t₀ hmem
    exact this (by simpa using hid)
  | some t =>
    refine ⟨"Task " ++ toString id ++ " deleted successfully",
            ⟨s.tasks_db.filter (fun t => t.id != id), s.next_id⟩,
            ?_, rfl, rfl, List.filter_sublist _,
            filter_ne_id_length id s.tasks_db hnodup t₀ hmem hid, ?_, ?_⟩
    · rw [delete_task, hf]
    · intro w hw hne
      exact List.mem_filter.mpr ⟨hw, by simpa using hne⟩
    · intro w hw
      have := List.of_mem_filter hw
      simpa using this

theorem delete_removes_exactly_target_witness :
    ∃ msg s', delete_task 1 exampleState1 = .ok (msg, s') ∧
      s'.next_id = exampleState1.next_id ∧
      s'.tasks_db = exampleState1.tasks_db.filter (fun t => t.id != 1) ∧
      s'.tasks_db.Sublist exampleState1.tasks_db ∧
      s'.tasks_db.length + 1 = exampleState1.tasks_db.length ∧
      (∀ w ∈ exampleState1.tasks_db, w.id ≠ 1 → w ∈ s'.tasks_db) ∧
      (∀ w ∈ s'.tasks_db, w.id ≠ 1) :=
  delete_removes_exactly_target exampleState1 1
    (create_task exampleCreate 0 0 initialState).1 (by decide) (by decide)
    (by decide)

/-! ### C5: summary -/

/-- Claim C5: on an empty store `summary` returns total 0 with both
mappings empty; on a non-empty store it returns the number of stored tasks
as total, and association lists in which each of the four status
(respectively priority) values is present as a key, mapped to the number
of stored tasks carrying that status (respectively priority). -/
theorem summary_spec (s : AppState) :
    (s.tasks_db = [] → summary s = (0, [], [])) ∧
    (s.tasks_db ≠ [] →
      (summary s).1 = s.tasks_db.length ∧
      (∀ st : TaskStatus,
        ((summary s).2.1).lookup st = some (countStatus st s.tasks_db)) ∧
      (∀ pr : TaskPriority,
        ((summary s).2.2).lookup pr = some (countPriority pr s.tasks_db))) := by
  constructor
  · intro h; simp [summary, h]
  · intro h
    have hne : s.tasks_db.isEmpty = false := by
      simpa [List.isEmpty_iff] using h
    refine ⟨?_, ?_, ?_⟩
    · simp [summary, hne]
    · intro st
      cases st <;> simp [summary, hne, allStatuses, List.lookup] <;> rfl
    · intro pr
      cases pr <;> simp [summary, hne, allPriorities, List.lookup] <;> rfl

theorem summary_spec_witness :
    summary initialState = (0, [], []) ∧
    ((summary exampleState1).2.1).lookup TaskStatus.pending =
      some (countStatus TaskStatus.pending exampleState1.tasks_db) :=
  ⟨(summary_spec initialState).1 rfl,
   ((summary_spec exampleState1).2 (by decide)).2.1 TaskStatus.pending⟩

/-! ### C6: filtering -/

/-- The status filter predicate of `get_tasks` (`none` = no filter). -/
def matchesStatus (st? : Option TaskStatus) (t : StoredTask) : Bool :=
  match st? with
  | none => true
  | some st => t.status == some st

/-- The priority filter predicate of `get_tasks` (`none` = no filter). -/
def matchesPriority (pr? : Option TaskPriority) (t : StoredTask) : Bool :=
  match pr? with
  | none => true
  | some pr => t.priority == some pr

/-- Conjunction of both filters. -/
def matchesFilters (st? : Option TaskStatus) (pr? : Option TaskPriority)
    (t : StoredTask) : Bool :=
  matchesStatus st? t && matchesPriority pr? t

/-- Claim C6: the filtering stage of `get_tasks` keeps exactly the tasks
matching every given filter (the two filters are ANDed when both are
given), in their relative insertion order (the result is a sublist of the
store), and everything `get_tasks` returns is a stored task matching all
active filters — a task failing a given filter never appears. -/
theorem list_returns_exactly_matches (st? : Option TaskStatus)
    (pr? : Option TaskPriority) (s : AppState) :
    filteredTasks st? pr? s = s.tasks_db.filter (matchesFilters st? pr?) ∧
    (filteredTasks st? pr? s).Sublist s.tasks_db ∧
    (∀ t, t ∈ filteredTasks st? pr? s ↔
      t ∈ s.tasks_db ∧ matchesFilters st? pr? t = true) ∧
    (∀ limit offset t, t ∈ get_tasks st? pr? limit offset s →
      t ∈ s.tasks_db ∧ matchesFilters st? pr? t = true) := by
  have heq : filteredTasks st? pr? s =
      s.tasks_db.filter (matchesFilters st? pr?) := by
    cases st? with
    | none =>
      cases pr? with
      | none => exact (List.filter_eq_self.mpr (fun a _ => rfl)).symm
      | some pr =>
        exact List.filter_congr (fun a _ => by
          simp [matchesFilters, matchesStatus, matchesPriority])
    | some st =>
      cases pr? with
      | none =>
        exact List.filter_congr (fun a _ => by
          simp [matchesFilters, matchesStatus, matchesPriority])
      | some pr =>
        show (s.tasks_db.filter fun t => t.status == some st).filter
            (fun t => t.priority == some pr) = _
        rw [List.filter_filter]
        exact List.filter_congr (fun a _ => by
          simp [matchesFilters, matchesStatus, matchesPriority, Bool.and_comm])
  refine ⟨heq, ?_, ?_, ?_⟩
  · rw [heq]; exact List.filter_sublist _
  · intro t; rw [heq, List.mem_filter]
  · intro limit offset t ht
    have h1 : t ∈ filteredTasks st? pr? s :=
      List.mem_of_mem_drop (List.mem_of_mem_take ht)
    rw [heq, List.mem_filter] at h1
    exact h1

theorem list_returns_exactly_matches_witness :
    (create_task exampleCreate 0 0 initialState).1 ∈ exampleState1.tasks_db ∧
    matchesFilters (some .pending) none
      (create_task exampleCreate 0 0 initialState).1 = true :=
  (list_returns_exactly_matches (some .pending) none exampleState1).2.2.2
    10 0 (create_task exampleCreate 0 0 initialState).1 (by decide)

/-! ### C7: pagination -/

/-- Claim C7: for any limit in 1–100 and any offset, `get_tasks` returns
the filtered sequence with the first `offset` records skipped and at most
`limit` records taken; its length is `min limit (N - offset)` where `N` is
the number of tasks matching the active filters (with truncated natural
subtraction; equivalently `min(L, max(0, N - O))` over the integers). -/
theorem list_pagination_count (st? : Option TaskStatus)
    (pr? : Option TaskPriority) (limit offset : Nat)
    (h1 : 1 ≤ limit) (h2 : limit ≤ 100) (s : AppState) :
    get_tasks st? pr? limit offset s =
      ((filteredTasks st? pr? s).drop offset).take limit ∧
    (get_tasks st? pr? limit offset s).length =
      min limit ((filteredTasks st? pr? s).length - offset) ∧
    ((get_tasks st? pr? limit offset s).length : Int) =
      min (limit : Int)
        (max 0 (((filteredTasks st? pr? s).length : Int) - (offset : Int))) := by
  have hlen : (get_tasks st? pr? limit offset s).length =
      min limit ((filteredTasks st? pr? s).length - offset) := by
    rw [get_tasks, List.length_take, List.length_drop]
  refine ⟨rfl, hlen, ?_⟩
  rw [hlen]
  omega

theorem list_pagination_count_witness :
    get_tasks none none 2 1 exampleState1 =
      ((filteredTasks none none exampleState1).drop 1).take 2 ∧
    (get_tasks none none 2 1 exampleState1).length =
      min 2 ((filteredTasks none none exampleState1).length - 1) ∧
    ((get_tasks none none 2 1 exampleState1).length : Int) =
      min (2 : Int)
        (max 0 (((filteredTasks none none exampleState1).length : Int) - (1 : Int))) :=
  list_pagination_count none none 2 1 (by decide) (by decide) exampleState1

/-! ### C8: query parameter validation -/

/-- Claim C8: a list request whose `limit` is outside 1–100 or whose
`offset` is negative is rejected at the boundary with a validation error —
no clamping, no result; an omitted parameter falls back to the declared
defaults `limit = 10`, `offset = 0`, and the request then proceeds. -/
theorem list_param_validation :
    (∀ (l : Int) (offset? : Option Int), (l < 1 ∨ 100 < l) →
      ∀ st? pr? s, handleList st? pr? (some l) offset? s =
        .error "validation error") ∧
    (∀ (limit? : Option Int) (o : Int), o < 0 →
      ∀ st? pr? s, handleList st? pr? limit? (some o) s =
        .error "validation error") ∧
    parseListParams none none = .ok (10, 0) ∧
    (∀ st? pr? s, handleList st? pr? none none s =
      .ok (get_tasks st? pr? 10 0 s)) := by
  refine ⟨?_, ?_, rfl, fun st? pr? s => rfl⟩
  · intro l offset? h st? pr? s
    have hneg : ¬(1 ≤ l ∧ l ≤ 100 ∧ 0 ≤ offset?.getD 0) := by
      intro hc
      obtain ⟨ha, hb, -⟩ := hc
      rcases h with h | h <;> omega
    simp [handleList, parseListParams, hneg]
  · intro limit? o h st? pr? s
    have hneg : ¬(1 ≤ limit?.getD 10 ∧ limit?.getD 10 ≤ 100 ∧ 0 ≤ o) := by
      intro hc
      obtain ⟨-, -, hc3⟩ := hc
      omega
    simp [handleList, parseListParams, hneg]

theorem list_param_validation_witness :
    handleList none none (some 0) none initialState =
      .error "validation error" ∧
    handleList none none none (some (-1)) initialState =
      .error "validation error" :=
  ⟨list_param_validation.1 0 none (Or.inl (by decide)) none none initialState,
   list_param_validation.2.1 none (-1) (by decide) none none initialState⟩

end TaskApi
